import Mathlib

/-!
Verification development for the research-notebook frontend.

The repository consists of the TypeScript type declarations
(src/unnamed/part_000), the API client module (src/unnamed/part_002), and
React components (ChatInterface, NoteList, TaskList, NotebookDetail).
Pure data types and the branching logic of the API client and component
handlers are embedded below as Lean definitions; behaviour of the backend
service, which is not part of this repository, is modelled from the
specification where a claim requires it (such definitions carry a doc
comment starting with "Modelled from the spec:").
-/

/- ===================== Data model (src/unnamed/part_000) ===================== -/

/-- The Notebook interface: id, name, createdAt, updatedAt, optional
description and optional source/note counts. -/
structure Notebook where
  id : String
  name : String
  createdAt : String
  updatedAt : String
  description : Option String
  sourceCount : Option Nat
  noteCount : Option Nat
deriving Repr, DecidableEq

/-- A TypeScript value that is either a single string or a list of strings,
used for the keyInsights and reflectionQuestions fields of Source. -/
inductive StrOrList where
  | str (s : String)
  | list (l : List String)
deriving Repr, DecidableEq

/-- The nested asset object of Source: optional file_path, url and
source_type fields. -/
structure SourceAsset where
  file_path : Option String
  url : Option String
  source_type : Option String
deriving Repr, DecidableEq

/-- The Source interface of the frontend data model. The `type` field is
declared as the union "url" | "file" | "text" | "scraped_web_page" and the
`status` field as the optional union "processed" | "pending" | "error";
string-literal unions are embedded as String fields constrained by the
validity predicates below. Note that the interface declares no
error-detail field. -/
structure Source where
  id : String
  notebookId : String
  type : String
  content : Option String
  title : Option String
  createdAt : String
  status : Option String
  asset : Option SourceAsset
  keyInsights : Option StrOrList
  simpleSummary : Option String
  reflectionQuestions : Option StrOrList
deriving Repr, DecidableEq

/-- Membership in the declared union of the Source.type field. -/
def sourceTypeValid (s : String) : Prop :=
  s = "url" ∨ s = "file" ∨ s = "text" ∨ s = "scraped_web_page"

/-- Membership in the declared union of the Source.status field:
"processed" | "pending" | "error". -/
def sourceStatusValid (s : String) : Prop :=
  s = "processed" ∨ s = "pending" ∨ s = "error"

instance (s : String) : Decidable (sourceStatusValid s) := by
  unfold sourceStatusValid; infer_instance

/-- A Source is well-typed when its status, if present, is in the declared
status union. -/
def sourceDeclaredStatusOk (s : Source) : Prop :=
  ∀ st ∈ s.status, sourceStatusValid st

/-- The spec wording for the status set (section 3 of the spec):
status is one of pending, processing, processed, error. This definition
follows the words of the spec, for comparison with `sourceStatusValid`
which is taken from the source. -/
def specStatusSet (s : String) : Prop :=
  s = "pending" ∨ s = "processing" ∨ s = "processed" ∨ s = "error"

instance (s : String) : Decidable (specStatusSet s) := by
  unfold specStatusSet; infer_instance

/-- Modelled from the spec: the Source state machine of section 4.1,
"pending → processing → {processed | error}. From error, a retry request
re-enters processing." The Source Registry that drives these transitions
is not part of this repository. -/
def specStep (a b : String) : Bool :=
  (a == "pending" && b == "processing") ||
  (a == "processing" && b == "processed") ||
  (a == "processing" && b == "error") ||
  (a == "error" && b == "processing")

/-- The ChatMessage interface: id, chat_session_id, sender, content,
timestamp and an optional explicit order. The sender field is declared as
the union "user" | "ai". -/
structure ChatMessage where
  id : String
  chat_session_id : String
  sender : String
  content : String
  timestamp : String
  order : Option Nat
deriving Repr, DecidableEq

/-- Membership in the declared union of the ChatMessage.sender field:
"user" | "ai". -/
def senderValid (s : String) : Prop :=
  s = "user" ∨ s = "ai"

instance (s : String) : Decidable (senderValid s) := by
  unfold senderValid; infer_instance

/-- The spec wording for the sender set (section 3 of the spec): sender is
one of user, assistant. This definition follows the words of the spec, for
comparison with `senderValid` which is taken from the source. -/
def specSenderSet (s : String) : Prop :=
  s = "user" ∨ s = "assistant"

instance (s : String) : Decidable (specSenderSet s) := by
  unfold specSenderSet; infer_instance

/-- Membership in the declared union of the Task.status field in the API
module: "todo" | "in_progress" | "completed". -/
def taskStatusValid (s : String) : Prop :=
  s = "todo" ∨ s = "in_progress" ∨ s = "completed"

instance (s : String) : Decidable (taskStatusValid s) := by
  unfold taskStatusValid; infer_instance

/- ===================== API layer (src/unnamed/part_002) ===================== -/

/-- A fetch Response as consumed by handleApiResponse. jsonBody is the
value that response.json() resolves to when the body parses as JSON (none
when parsing the body rejects); jsonMessage is the "message" property of
that parsed value when the body parses and the property is a string (none
otherwise); textBody is the value response.text() resolves to;
contentTypeJson records whether the content-type header includes
application/json. -/
structure ApiResponse (α : Type) where
  status : Nat
  contentTypeJson : Bool
  jsonBody : Option α
  jsonMessage : Option String
  textBody : String

/-- response.ok of the fetch API: status in the range 200 to 299. -/
def ApiResponse.ok {α : Type} (r : ApiResponse α) : Bool :=
  200 ≤ r.status && r.status < 300

/-- The fallback message built from the status code, "HTTP error! status: S". -/
def httpErrorMsg (status : Nat) : String :=
  "HTTP error! status: " ++ toString status

/-- The JavaScript truthiness choice s || fb on strings: the empty string
is falsy. -/
def strOrElse (s fb : String) : String :=
  if s == "" then fb else s

/-- errorData?.message || fb where message may be absent. -/
def optStrOrElse (s : Option String) (fb : String) : String :=
  match s with
  | some v => strOrElse v fb
  | none => fb

/-- handleApiResponse from the API module: when the response is not ok,
build an error message (from the parsed JSON error body when content-type
is JSON and the body parses, from a fixed parse-failure message when it
does not parse, and from the text body otherwise) and reject; when the
response is ok with status 204, resolve to undefined without reading the
body; otherwise resolve to the parsed JSON body, which rejects when the
body is not valid JSON. -/
def handleApiResponse {α : Type} (r : ApiResponse α) : Except String (Option α) :=
  if !r.ok then
    let errMsg :=
      if r.contentTypeJson then
        match r.jsonBody with
        | some _ => optStrOrElse r.jsonMessage (httpErrorMsg r.status)
        | none =>
            "HTTP error! status: " ++ toString r.status ++
              " and failed to parse error response."
      else
        strOrElse r.textBody (httpErrorMsg r.status)
    Except.error errMsg
  else if r.status == 204 then
    Except.ok none
  else
    match r.jsonBody with
    | some v => Except.ok (some v)
    | none => Except.error "SyntaxError: failed to parse response body as JSON"

/-- fetchNotebookById from the API module: when the response status is
404 it logs a warning and resolves to undefined; otherwise it delegates to
handleApiResponse (the surrounding catch only logs and rethrows, so it
does not change the result). -/
def fetchNotebookById (r : ApiResponse Notebook) : Except String (Option Notebook) :=
  if r.status == 404 then
    Except.ok none
  else
    handleApiResponse r

/- ============== Component logic (TaskList, ChatInterface, NoteList) ============== -/

/-- The status successor of handleToggleStatus in TaskList: the ternary
chain maps "todo" to "in_progress", "in_progress" to "completed", and
anything else to "todo". -/
def nextTaskStatus (s : String) : String :=
  if s == "todo" then "in_progress"
  else if s == "in_progress" then "completed"
  else "todo"

/-- The alignment class chosen for a message row in ChatInterface: the
ternary on msg.sender maps "user" to "justify-content-end" and anything
else to "justify-content-start". -/
def chatAlignmentClass (sender : String) : String :=
  if sender == "user" then "justify-content-end" else "justify-content-start"

/-- getStatusVariant from NoteList: the switch maps "processed" to
"success", "pending" to "warning", "error" to "danger" and anything else
(including an absent status) to "secondary". -/
def getStatusVariant (status : Option String) : String :=
  match status with
  | some s =>
      if s == "processed" then "success"
      else if s == "pending" then "warning"
      else if s == "error" then "danger"
      else "secondary"
  | none => "secondary"

/-- True when some optional textual field is present and non-empty. -/
def nonEmptyOpt : Option String → Bool
  | some s => s != ""
  | none => false

/-- Whether a Source carries any non-empty textual detail at all: the
Source interface declares no dedicated error-detail field, so this is the
weakest reading under which a Source could be said to carry an error
detail — some optional descriptive field is present. -/
def carriesSomeDetail (s : Source) : Bool :=
  nonEmptyOpt s.content || nonEmptyOpt s.title || nonEmptyOpt s.simpleSummary ||
  s.keyInsights.isSome || s.reflectionQuestions.isSome || s.asset.isSome

/- ===================== Artifact mapping (Transformation Executor) ===================== -/

/-- Modelled from the spec: section 4.2 step (4), "on success, upsert the
artifact keyed by transformation name into the Source artifact mapping".
The Transformation Executor is not part of this repository; only its API
caller runSourceTransformation is. The artifact mapping is a list of
(transformation name, artifact value) entries; upsert replaces the entry
with the given name when one exists and appends otherwise. -/
def upsertArtifact (name v : String) : List (String × String) → List (String × String)
  | [] => [(name, v)]
  | p :: rest => if p.1 == name then (name, v) :: rest else p :: upsertArtifact name v rest

/-- The number of artifact entries stored under a given transformation name. -/
def countArtifacts (name : String) (m : List (String × String)) : Nat :=
  (m.filter (fun p => p.1 == name)).length

/- ===================== Chat Orchestrator (modelled from the spec) ===================== -/

/-- A chat message as appended by the orchestrator model: sender literal,
content and the explicit order value assigned at append time. The sender
literals are those of the ChatMessage interface, "user" and "ai". -/
structure OrchMessage where
  sender : String
  content : String
  order : Nat
deriving Repr, DecidableEq

/-- Modelled from the spec: the order value assigned to the next message
appended to a session, strictly above the current tail of the session. -/
def nextOrder (msgs : List OrchMessage) : Nat :=
  match msgs.getLast? with
  | some m => m.order + 1
  | none => 0

/-- The outcome of postMessage: both appended messages on success, a
surfaced generation error (with the user message kept), or SessionNotFound. -/
inductive PostResult where
  | ok (userMessage assistantMessage : OrchMessage)
  | genFailed (reason : String)
  | sessionNotFound
deriving Repr, DecidableEq

/-- Modelled from the spec: section 4.4 steps (2) to (6) on a single
session. Append the user message with a strictly-increasing order value,
invoke the Assistant Adapter (the gen argument), and on success append the
assistant reply immediately after in the same order sequence, returning
both messages; on failure the user message remains appended and the error
is surfaced. -/
def postToSession (gen : String → Except String String)
    (msgs : List OrchMessage) (content : String) :
    List OrchMessage × PostResult :=
  let u : OrchMessage := ⟨"user", content, nextOrder msgs⟩
  let msgs1 := msgs ++ [u]
  match gen content with
  | Except.ok reply =>
      let a : OrchMessage := ⟨"ai", reply, nextOrder msgs1⟩
      (msgs1 ++ [a], PostResult.ok u a)
  | Except.error e => (msgs1, PostResult.genFailed e)

/-- Look up the message list of a session by id in the session store. -/
def lookupSession (sid : String) :
    List (String × List OrchMessage) → Option (List OrchMessage)
  | [] => none
  | p :: rest => if p.1 == sid then some p.2 else lookupSession sid rest

/-- Replace the message list of a session by id in the session store. -/
def setSession (sid : String) (msgs : List OrchMessage) :
    List (String × List OrchMessage) → List (String × List OrchMessage)
  | [] => []
  | p :: rest =>
      if p.1 == sid then (sid, msgs) :: rest else p :: setSession sid msgs rest

/-- Modelled from the spec: section 4.4, postMessage(sessionId, content).
Validate that the session exists (SessionNotFound otherwise) and delegate
to postToSession, writing the updated message list back to the store. -/
def postMessage (gen : String → Except String String)
    (sessions : List (String × List OrchMessage)) (sid content : String) :
    List (String × List OrchMessage) × PostResult :=
  match lookupSession sid sessions with
  | none => (sessions, PostResult.sessionNotFound)
  | some msgs =>
      let r := postToSession gen msgs content
      (setSession sid r.1 sessions, r.2)

/-- Comparison of two orchestrator messages by their order values. -/
def ordLT (a b : OrchMessage) : Prop :=
  a.order < b.order

instance : IsTrans OrchMessage ordLT :=
  ⟨fun _ _ _ h1 h2 => Nat.lt_trans h1 h2⟩

/-- Messages of a session strictly increase in their order values along
the list (adjacent comparison; the relation is transitive so this gives a
strict total order on positions). -/
def strictlyOrdered (msgs : List OrchMessage) : Prop :=
  msgs.Chain' ordLT

/-- Define an example Source in error status with every optional
descriptive field absent; it is well-typed for the Source interface. -/
def errSourceExample : Source :=
  { id := "src_err", notebookId := "nb1", type := "url", content := none,
    title := none, createdAt := "2024-05-18T10:00:00Z", status := some "error",
    asset := none, keyInsights := none, simpleSummary := none,
    reflectionQuestions := none }

/- ===================== Helper lemmas ===================== -/

theorem countArtifacts_nil (name : String) : countArtifacts name [] = 0 := rfl

theorem countArtifacts_upsert (name v : String) (m : List (String × String)) :
    countArtifacts name (upsertArtifact name v m) = max (countArtifacts name m) 1 := by
  induction m with
  | nil => simp [upsertArtifact, countArtifacts]
  | cons p rest ih =>
    cases hp : (p.1 == name) with
    | true =>
        simp [upsertArtifact, countArtifacts, hp, List.filter_cons]
    | false =>
        simp only [upsertArtifact, hp, Bool.false_eq_true, if_false,
          countArtifacts, List.filter_cons]
        simpa [countArtifacts] using ih

theorem length_upsert_of_mem (name v : String) (m : List (String × String))
    (h : 1 ≤ countArtifacts name m) :
    (upsertArtifact name v m).length = m.length := by
  induction m with
  | nil => simp [countArtifacts] at h
  | cons p rest ih =>
    cases hp : (p.1 == name) with
    | true => simp [upsertArtifact, hp]
    | false =>
        have h' : 1 ≤ countArtifacts name rest := by
          simpa [countArtifacts, List.filter_cons, hp] using h
        simp [upsertArtifact, hp, ih h']

theorem lookupSession_set (sid : String) (msgs : List OrchMessage)
    (ss : List (String × List OrchMessage)) (old : List OrchMessage)
    (h : lookupSession sid ss = some old) :
    lookupSession sid (setSession sid msgs ss) = some msgs := by
  induction ss with
  | nil => simp [lookupSession] at h
  | cons p rest ih =>
    cases hp : (p.1 == sid) with
    | true => simp [setSession, hp, lookupSession]
    | false =>
        have h' : lookupSession sid rest = some old := by
          simpa [lookupSession, hp] using h
        simp [setSession, hp, lookupSession, ih h']

theorem postToSession_ok_eq (gen : String → Except String String)
    (msgs : List OrchMessage) (content reply : String)
    (hgen : gen content = Except.ok reply) :
    postToSession gen msgs content =
      (msgs ++ [⟨"user", content, nextOrder msgs⟩,
        ⟨"ai", reply, nextOrder (msgs ++ [⟨"user", content, nextOrder msgs⟩])⟩],
       PostResult.ok ⟨"user", content, nextOrder msgs⟩
        ⟨"ai", reply, nextOrder (msgs ++ [⟨"user", content, nextOrder msgs⟩])⟩) := by
  simp [postToSession, hgen]

theorem postToSession_err_eq (gen : String → Except String String)
    (msgs : List OrchMessage) (content e : String)
    (hgen : gen content = Except.error e) :
    postToSession gen msgs content =
      (msgs ++ [⟨"user", content, nextOrder msgs⟩], PostResult.genFailed e) := by
  simp [postToSession, hgen]

theorem strictlyOrdered_append (msgs : List OrchMessage) (s c : String)
    (h : strictlyOrdered msgs) :
    strictlyOrdered (msgs ++ [⟨s, c, nextOrder msgs⟩]) := by
  show List.Chain' ordLT _
  refine List.Chain'.append h (List.chain'_singleton _) ?_
  intro x hx y hy
  simp only [List.head?_cons, Option.mem_def, Option.some.injEq] at hy
  subst hy
  rw [Option.mem_def] at hx
  show x.order < nextOrder msgs
  simp only [nextOrder, hx]
  omega

theorem strictlyOrdered_pairwise_ne (msgs : List OrchMessage)
    (h : strictlyOrdered msgs) :
    List.Pairwise (fun a b : OrchMessage => a.order ≠ b.order) msgs := by
  have hp : List.Pairwise ordLT msgs := List.chain'_iff_pairwise.mp h
  exact hp.imp fun hab => Nat.ne_of_lt hab

/- ===================== Claim theorems ===================== -/

/-- C1: for every session id and non-empty content, a successful
postMessage (assistant generation succeeds) returns both the appended user
message and the appended assistant message as a pair, and both are
appended, in order, to the message sequence of the session. -/
theorem c1_postMessage_appends_and_returns_both
    (gen : String → Except String String)
    (sessions : List (String × List OrchMessage))
    (sid content reply : String) (msgs : List OrchMessage)
    (hfound : lookupSession sid sessions = some msgs)
    (hcontent : content ≠ "")
    (hgen : gen content = Except.ok reply) :
    (postMessage gen sessions sid content).2 =
      PostResult.ok ⟨"user", content, nextOrder msgs⟩
        ⟨"ai", reply, nextOrder (msgs ++ [⟨"user", content, nextOrder msgs⟩])⟩ ∧
    lookupSession sid (postMessage gen sessions sid content).1 =
      some (msgs ++ [⟨"user", content, nextOrder msgs⟩,
        ⟨"ai", reply, nextOrder (msgs ++ [⟨"user", content, nextOrder msgs⟩])⟩]) := by
  simp only [postMessage, hfound]
  rw [postToSession_ok_eq gen msgs content reply hgen]
  exact ⟨rfl, lookupSession_set sid _ sessions msgs hfound⟩

/-- Witness for C1 at a concrete session store, content and assistant. -/
theorem c1_witness :
    (postMessage (fun _ => Except.ok "grounded reply")
        [("chat_session:xyz", [])] "chat_session:xyz" "What does the report say?").2 =
      PostResult.ok ⟨"user", "What does the report say?", 0⟩
        ⟨"ai", "grounded reply", 1⟩ ∧
    lookupSession "chat_session:xyz"
        (postMessage (fun _ => Except.ok "grounded reply")
          [("chat_session:xyz", [])] "chat_session:xyz" "What does the report say?").1 =
      some [⟨"user", "What does the report say?", 0⟩, ⟨"ai", "grounded reply", 1⟩] := by
  have h := c1_postMessage_appends_and_returns_both
    (fun _ => Except.ok "grounded reply") [("chat_session:xyz", [])]
    "chat_session:xyz" "What does the report say?" "grounded reply" []
    rfl (by decide) rfl
  simpa [nextOrder] using h

/-- C3: if the assistant generation step fails, the user message remains
appended to the message list of the session (it is not rolled back) and
the error is surfaced to the caller. -/
theorem c3_user_message_kept_on_generation_failure
    (gen : String → Except String String)
    (sessions : List (String × List OrchMessage))
    (sid content e : String) (msgs : List OrchMessage)
    (hfound : lookupSession sid sessions = some msgs)
    (hgen : gen content = Except.error e) :
    (postMessage gen sessions sid content).2 = PostResult.genFailed e ∧
    lookupSession sid (postMessage gen sessions sid content).1 =
      some (msgs ++ [⟨"user", content, nextOrder msgs⟩]) := by
  simp only [postMessage, hfound]
  rw [postToSession_err_eq gen msgs content e hgen]
  exact ⟨rfl, lookupSession_set sid _ sessions msgs hfound⟩

/-- Witness for C3 with an assistant that always fails permanently. -/
theorem c3_witness :
    (postMessage (fun _ => Except.error "permanent: no assistant reply")
        [("s1", [])] "s1" "hello").2 =
      PostResult.genFailed "permanent: no assistant reply" ∧
    lookupSession "s1"
        (postMessage (fun _ => Except.error "permanent: no assistant reply")
          [("s1", [])] "s1" "hello").1 = some [⟨"user", "hello", 0⟩] := by
  have h := c3_user_message_kept_on_generation_failure
    (fun _ => Except.error "permanent: no assistant reply") [("s1", [])]
    "s1" "hello" "permanent: no assistant reply" [] rfl rfl
  simpa [nextOrder] using h

/-- C4: posting to a session whose messages are in strictly increasing
order keeps them in strictly increasing order, whether generation succeeds
or fails, and in particular no two messages of the session carry equal
order values. -/
theorem c4_session_order_strictly_increasing
    (gen : String → Except String String) (msgs : List OrchMessage)
    (content : String) (h : strictlyOrdered msgs) :
    strictlyOrdered (postToSession gen msgs content).1 ∧
    List.Pairwise (fun a b : OrchMessage => a.order ≠ b.order)
      (postToSession gen msgs content).1 := by
  have key : strictlyOrdered (postToSession gen msgs content).1 := by
    cases hg : gen content with
    | ok reply =>
        rw [postToSession_ok_eq gen msgs content reply hg]
        have h1 := strictlyOrdered_append msgs "user" content h
        have h2 := strictlyOrdered_append
          (msgs ++ [⟨"user", content, nextOrder msgs⟩]) "ai" reply h1
        show strictlyOrdered (msgs ++ [_, _])
        simpa [strictlyOrdered, List.append_assoc] using h2
    | error e =>
        rw [postToSession_err_eq gen msgs content e hg]
        exact strictlyOrdered_append msgs "user" content h
  exact ⟨key, strictlyOrdered_pairwise_ne _ key⟩

/-- Witness for C4 at a concrete session. -/
theorem c4_witness :
    strictlyOrdered (postToSession (fun _ => Except.ok "r") [] "q").1 ∧
    List.Pairwise (fun a b : OrchMessage => a.order ≠ b.order)
      (postToSession (fun _ => Except.ok "r") [] "q").1 :=
  c4_session_order_strictly_increasing (fun _ => Except.ok "r") [] "q"
    List.chain'_nil

/-- C5: upserting the artifact of the same transformation name twice
leaves exactly one entry under that name (given the mapping held at most
one beforehand) and the second run does not grow the mapping: it replaces,
not appends. -/
theorem c5_second_run_replaces_artifact
    (name v1 v2 : String) (m : List (String × String))
    (h : countArtifacts name m ≤ 1) :
    countArtifacts name (upsertArtifact name v2 (upsertArtifact name v1 m)) = 1 ∧
    (upsertArtifact name v2 (upsertArtifact name v1 m)).length =
      (upsertArtifact name v1 m).length := by
  have h1 : countArtifacts name (upsertArtifact name v1 m) = 1 := by
    rw [countArtifacts_upsert]; omega
  refine ⟨?_, ?_⟩
  · rw [countArtifacts_upsert, h1]; omega
  · exact length_upsert_of_mem name v2 _ (by omega)

/-- Witness for C5 at a concrete artifact mapping. -/
theorem c5_witness :
    countArtifacts "summarize_text"
      (upsertArtifact "summarize_text" "v2"
        (upsertArtifact "summarize_text" "v1" [("key_insights", "k")])) = 1 ∧
    (upsertArtifact "summarize_text" "v2"
        (upsertArtifact "summarize_text" "v1" [("key_insights", "k")])).length =
      (upsertArtifact "summarize_text" "v1" [("key_insights", "k")]).length :=
  c5_second_run_replaces_artifact "summarize_text" "v1" "v2"
    [("key_insights", "k")] (by decide)

/-- C2 fails as stated: the state "processing" of the state machine in
the spec is not a member of the declared Source.status union of the
frontend data model, so no Source of this repository can ever hold the
intermediate state of the claimed transition pending → processing. -/
theorem c2_counterexample :
    specStatusSet "processing" ∧ ¬ sourceStatusValid "processing" := by decide

/-- C2 amended: every status of the declared union lies in the four-state
set of the spec; the state machine modelled from the spec stays within
that four-state set and contains the retry transition from error back to
processing — but the declared union itself omits "processing". -/
theorem c2_status_machine_amended :
    (∀ st, sourceStatusValid st → specStatusSet st) ∧
    specStep "error" "processing" = true ∧
    (∀ a b, specStep a b = true → specStatusSet a ∧ specStatusSet b) := by
  refine ⟨?_, rfl, ?_⟩
  · intro st h
    rcases h with h | h | h <;> subst h <;> decide
  · intro a b h
    simp only [specStep, Bool.or_eq_true, Bool.and_eq_true, beq_iff_eq,
      or_assoc] at h
    rcases h with ⟨ha, hb⟩ | ⟨ha, hb⟩ | ⟨ha, hb⟩ | ⟨ha, hb⟩ <;>
      subst ha <;> subst hb <;> exact ⟨by decide, by decide⟩

/-- Witness for C2 at concrete statuses. -/
theorem c2_witness :
    specStatusSet "pending" ∧ specStatusSet "processing" :=
  ⟨c2_status_machine_amended.1 "pending" (by decide),
   (c2_status_machine_amended.2.2 "error" "processing" (by decide)).2⟩

/-- C6 fails as stated: "ai" is a declared ChatMessage sender literal but
is not a member of the set {user, assistant} named by the spec. -/
theorem c6_counterexample :
    senderValid "ai" ∧ ¬ specSenderSet "ai" := by decide

/-- C6 amended: every declared ChatMessage sender is "user" or "ai" (the
code literal for assistant-sent messages is "ai", not "assistant"), and
ChatInterface right-aligns exactly the user messages and left-aligns the
"ai" messages. -/
theorem c6_sender_amended :
    ∀ s, senderValid s →
      (s = "user" ∧ chatAlignmentClass s = "justify-content-end") ∨
      (s = "ai" ∧ chatAlignmentClass s = "justify-content-start") := by
  intro s h
  rcases h with h | h <;> subst h
  · exact Or.inl ⟨rfl, rfl⟩
  · exact Or.inr ⟨rfl, rfl⟩

/-- Witness for C6 at the sender literal "ai". -/
theorem c6_witness :
    ("ai" = "user" ∧ chatAlignmentClass "ai" = "justify-content-end") ∨
    ("ai" = "ai" ∧ chatAlignmentClass "ai" = "justify-content-start") :=
  c6_sender_amended "ai" (by decide)

/-- C7 fails as stated: fetchNotebookById on a 404 response (unknown id)
resolves successfully to undefined instead of rejecting with a NotFound
error. -/
theorem c7_counterexample :
    fetchNotebookById
      { status := 404, contentTypeJson := true, jsonBody := none,
        jsonMessage := some "Notebook not found", textBody := "" } =
      Except.ok none := rfl

/-- C7 amended: fetchNotebookById maps an unknown id (HTTP 404) to a
successful undefined result; every other non-ok response rejects with an
Error that propagates to the caller. -/
theorem c7_fetchNotebookById_amended :
    ∀ r : ApiResponse Notebook,
      (r.status = 404 → fetchNotebookById r = Except.ok none) ∧
      (r.status ≠ 404 → r.ok = false →
        ∃ e, fetchNotebookById r = Except.error e) := by
  intro r
  constructor
  · intro h
    simp [fetchNotebookById, h]
  · intro h404 hok
    have hnot : (!r.ok) = true := by simp [hok]
    simp only [fetchNotebookById, beq_iff_eq, h404, if_false, handleApiResponse,
      hnot, if_true]
    exact ⟨_, rfl⟩

/-- Witness for C7 at concrete responses. -/
theorem c7_witness :
    fetchNotebookById
        { status := 404, contentTypeJson := false, jsonBody := none,
          jsonMessage := none, textBody := "" } = Except.ok none ∧
    ∃ e, fetchNotebookById
        { status := 500, contentTypeJson := false, jsonBody := none,
          jsonMessage := none, textBody := "backend down" } = Except.error e :=
  ⟨(c7_fetchNotebookById_amended _).1 rfl,
   (c7_fetchNotebookById_amended _).2 (by decide) rfl⟩

/-- C8 fails as stated: the Source interface declares no error-detail
field, and this well-typed Source in error status carries no non-empty
textual detail in any of its optional descriptive fields. -/
theorem c8_counterexample :
    errSourceExample.status = some "error" ∧ sourceStatusValid "error" ∧
    carriesSomeDetail errSourceExample = false := ⟨rfl, by decide, rfl⟩

/-- C8 amended: the frontend Source model has no error-detail field, so a
Source whose status is error need not carry any non-empty error detail:
there is a well-typed Source in error status with no detail at all. -/
theorem c8_error_without_detail_amended :
    ∃ s : Source, sourceDeclaredStatusOk s ∧ s.status = some "error" ∧
      carriesSomeDetail s = false := by
  refine ⟨errSourceExample, ?_, rfl, rfl⟩
  intro st hst
  simp only [errSourceExample, Option.mem_def, Option.some.injEq] at hst
  subst hst
  decide

/-- C9 fails as stated: rejection is not exclusive to response.ok being
false — this ok response (status 200) whose body is not valid JSON also
rejects, because response.json() rejects on it. -/
theorem c9_counterexample :
    (ApiResponse.ok
      { status := 200, contentTypeJson := false, jsonBody := (none : Option Nat),
        jsonMessage := none, textBody := "" }) = true ∧
    handleApiResponse
      { status := 200, contentTypeJson := false, jsonBody := (none : Option Nat),
        jsonMessage := none, textBody := "" } =
      Except.error "SyntaxError: failed to parse response body as JSON" :=
  ⟨rfl, rfl⟩

/-- C9 amended: handleApiResponse rejects with an Error whenever
response.ok is false; an ok response with status 204 resolves to undefined
without parsing the body; any other ok response whose body parses as JSON
resolves to the parsed body; and an ok non-204 response whose body does
not parse as JSON also rejects. -/
theorem c9_handleApiResponse_amended :
    ∀ {α : Type} (r : ApiResponse α),
      (r.ok = false → ∃ e, handleApiResponse r = Except.error e) ∧
      (r.ok = true → r.status = 204 → handleApiResponse r = Except.ok none) ∧
      (∀ v, r.ok = true → r.status ≠ 204 → r.jsonBody = some v →
        handleApiResponse r = Except.ok (some v)) ∧
      (r.ok = true → r.status ≠ 204 → r.jsonBody = none →
        ∃ e, handleApiResponse r = Except.error e) := by
  intro α r
  refine ⟨?_, ?_, ?_, ?_⟩
  · intro hok
    have hnot : (!r.ok) = true := by simp [hok]
    simp only [handleApiResponse, hnot, if_true]
    exact ⟨_, rfl⟩
  · intro hok h204
    simp [handleApiResponse, hok, h204]
  · intro v hok h204 hbody
    simp [handleApiResponse, hok, h204, hbody]
  · intro hok h204 hbody
    simp only [handleApiResponse, hok, Bool.not_true, Bool.false_eq_true,
      if_false, beq_iff_eq, h204, hbody]
    exact ⟨_, rfl⟩

/-- Witness for C9 at concrete responses of each kind. -/
theorem c9_witness :
    (∃ e, handleApiResponse
      { status := 500, contentTypeJson := false, jsonBody := (none : Option Nat),
        jsonMessage := none, textBody := "oops" } = Except.error e) ∧
    handleApiResponse
      { status := 204, contentTypeJson := true, jsonBody := (none : Option Nat),
        jsonMessage := none, textBody := "" } = Except.ok none ∧
    handleApiResponse
      { status := 200, contentTypeJson := true, jsonBody := some 5,
        jsonMessage := none, textBody := "" } =
      Except.ok (some 5) :=
  ⟨(c9_handleApiResponse_amended _).1 rfl,
   (c9_handleApiResponse_amended _).2.1 rfl rfl,
   (c9_handleApiResponse_amended _).2.2.1 5 rfl (by decide) rfl⟩

/-- C10: the task status successor of handleToggleStatus maps todo to
in_progress, in_progress to completed and completed to todo; on the
declared status set the successor stays in the set and applying it three
times yields the original status. -/
theorem c10_task_status_cycle :
    nextTaskStatus "todo" = "in_progress" ∧
    nextTaskStatus "in_progress" = "completed" ∧
    nextTaskStatus "completed" = "todo" ∧
    ∀ s, taskStatusValid s →
      taskStatusValid (nextTaskStatus s) ∧
      nextTaskStatus (nextTaskStatus (nextTaskStatus s)) = s := by
  refine ⟨rfl, rfl, rfl, ?_⟩
  intro s hs
  rcases hs with h | h | h <;> subst h <;> exact ⟨by decide, rfl⟩

/-- Witness for C10 at concrete statuses. -/
theorem c10_witness :
    (taskStatusValid (nextTaskStatus "todo") ∧
      nextTaskStatus (nextTaskStatus (nextTaskStatus "todo")) = "todo") ∧
    (taskStatusValid (nextTaskStatus "in_progress") ∧
      nextTaskStatus (nextTaskStatus (nextTaskStatus "in_progress")) =
        "in_progress") :=
  ⟨c10_task_status_cycle.2.2.2 "todo" (by decide),
   c10_task_status_cycle.2.2.2 "in_progress" (by decide)⟩
